import Mathlib

/-!
Shallow embedding of the DT4H AI-Dashboard FEM-runner orchestration code
(`src/demo/vre_template_tool/dt4h_demonstrator.py`,
`src/demo/vre_template_tool/fem_api_client.py`,
`src/dt4h-flcore/dt4h_flcore_tool/dt4h_flcore.py`,
`src/dt4h-flcore/dt4h_flcore_tool/flcore_params.py`,
`src/dt4h-flcore/vre_tool_dockerized/vre_template_tool/tool/fem_api_client.py`),
with theorems settling the specification claims.

Modelling conventions:
- Python dicts with string keys are association lists `List (String × α)`;
  key membership is `List.lookup`; the empty association list plays the role
  of an empty (falsy) dict/list value.
- Remote calls are oracles passed in as functions/streams; a call that raises
  an exception is an `Except.error` carrying the exception message.
- Wall-clock time is abstracted to poll iterations: each loop iteration starts
  with a sleep of `interval` time units, so the elapsed time read after the
  k-th sleep is `k * interval` (network latency is not counted).
- `while True` loops are embedded with explicit fuel returning `Option`:
  `none` means the loop is still running after `fuel` iterations.
-/

namespace DT4H

/-- A single node-status entry of the fetched status sequence: a JSON object,
embedded as an association list (keys `node`, `status`, ...). -/
abbrev StatusEntry := List (String × String)

/-- Embeds `check_job_finished` (`dt4h_demonstrator.py` lines 140-156, and the
identical method `FEMAPIClient.check_job_finished`, `fem_api_client.py` lines
133-149): an empty status sequence is not finished; otherwise the for-loop
returns `False` as soon as an entry lacks the `status` key or has
`status == "running"`, and returns `True` after the loop. The early-exit loop
over all entries is `List.all` of the per-entry condition. -/
def check_job_finished (job_status : List StatusEntry) : Bool :=
  if job_status.isEmpty then false
  else job_status.all fun node_status =>
    match node_status.lookup "status" with
    | none => false
    | some v => !(v == "running")

/-- Per-entry condition of `check_job_finished`, unfolded to a proposition. -/
theorem check_entry_iff (e : StatusEntry) :
    (match e.lookup "status" with
      | none => false
      | some v => !(v == "running")) = true ↔
    ∃ v, e.lookup "status" = some v ∧ v ≠ "running" := by
  cases h : e.lookup "status" with
  | none => simp [h]
  | some v =>
    simp only [h]
    constructor
    · intro hv
      exact ⟨v, rfl, by simpa using hv⟩
    · rintro ⟨w, hw, hne⟩
      cases hw
      simpa using hne

/-- Claim C1: `check_job_finished` returns true iff the fetched status
sequence is non-empty and every entry has a `status` field whose value is not
`"running"`; in particular it is false when some entry's status is
`"running"`, when some entry lacks the `status` field, and when the sequence
is empty. -/
theorem check_job_finished_iff (job_status : List StatusEntry) :
    check_job_finished job_status = true ↔
      job_status ≠ [] ∧
        ∀ e ∈ job_status, ∃ v, e.lookup "status" = some v ∧ v ≠ "running" := by
  cases job_status with
  | nil => simp [check_job_finished]
  | cons e es =>
    simp only [check_job_finished, List.isEmpty_cons, Bool.false_eq_true,
      if_false, List.all_eq_true, ne_eq, reduceCtorEq, not_false_eq_true,
      true_and]
    constructor
    · intro h x hx
      exact (check_entry_iff x).mp (h x hx)
    · intro h x hx
      exact (check_entry_iff x).mpr (h x hx)

/-- Embeds `all_nodes = set([server] + clients)`
(`dt4h_demonstrator.py` line 273 with `server_active_node` /
`client_active_nodes`, and `dt4h_flcore.py` line 114 with
`api_client.server_node` / `api_client.client_nodes`): the Python `set` of
the concatenated list is the finite set of its elements. -/
def all_nodes (server : String) (clients : List String) : Finset String :=
  (server :: clients).toFinset

/-- Claim C8: `all_nodes` equals the set union of `{server}` and the client
list's elements, with no duplicates (it is a `Finset`), its membership is
exactly `x = server ∨ x ∈ clients`, and it is invariant under reordering
(and duplication collapses) of the client list. -/
theorem all_nodes_spec (s : String) (cs cs' : List String) (h : cs.Perm cs') :
    all_nodes s cs = {s} ∪ cs.toFinset ∧
      (∀ x, x ∈ all_nodes s cs ↔ x = s ∨ x ∈ cs) ∧
      all_nodes s cs = all_nodes s cs' := by
  refine ⟨?_, ?_, ?_⟩
  · ext x
    simp [all_nodes]
  · intro x
    simp [all_nodes]
  · ext x
    simp only [all_nodes, List.mem_toFinset, List.mem_cons]
    exact or_congr Iff.rfl h.mem_iff

/-- Witness for C8 at concrete inputs: server `"BSC"`, client lists
`["UB", "HULAFE", "UB"]` and `["HULAFE", "UB", "UB"]` (a permutation). -/
theorem all_nodes_spec_witness :
    (["UB", "HULAFE", "UB"].Perm ["HULAFE", "UB", "UB"]) ∧
      (all_nodes "BSC" ["UB", "HULAFE", "UB"] =
          {"BSC"} ∪ (["UB", "HULAFE", "UB"] : List String).toFinset ∧
        (∀ x, x ∈ all_nodes "BSC" ["UB", "HULAFE", "UB"] ↔
            x = "BSC" ∨ x ∈ ["UB", "HULAFE", "UB"]) ∧
        all_nodes "BSC" ["UB", "HULAFE", "UB"] =
          all_nodes "BSC" ["HULAFE", "UB", "UB"]) :=
  ⟨by decide, all_nodes_spec "BSC" _ _ (by decide)⟩

/-! ### FlcoreParams (`dt4h-flcore/dt4h_flcore_tool/flcore_params.py`) -/

/-- Embeds `DEFAULT_TRAIN_LABELS` (`flcore_params.py` lines 8-18). -/
def DEFAULT_TRAIN_LABELS : List String :=
  ["encounters_encounterClass",
   "encounters_admissionYear",
   "vital_signs_systolicBp_value_last",
   "patient_demographics_gender",
   "patient_demographics_age",
   "vital_signs_weight_value_last",
   "vital_signs_height_value_first",
   "lab_results_crpNonHs_value_avg",
   "lab_results_tropIHs_value_min"]

/-- Embeds `DEFAULT_TARGET_LABEL` (`flcore_params.py` line 20). -/
def DEFAULT_TARGET_LABEL : String := "conditions_stroke_any"

/-- Embeds the initial value of the module-level dict `DEFAULT_SERVER_PARAMS`
(`flcore_params.py` lines 22-26). -/
def DEFAULT_SERVER_PARAMS : List (String × Int) :=
  [("n_features", (DEFAULT_TRAIN_LABELS.length : Int)),
   ("num_rounds", 1),
   ("num_clients", 1)]

/-- Python dict store `d[k] = v`: updates the value in place if the key is
present, otherwise appends it (insertion order preserved). -/
def setKey (d : List (String × Int)) (k : String) (v : Int) :
    List (String × Int) :=
  if d.any (fun p => p.1 == k) then
    d.map fun p => if p.1 == k then (k, v) else p
  else d ++ [(k, v)]

/-- Module-level mutable state of `flcore_params.py`: the current contents of
the dict object bound to `DEFAULT_SERVER_PARAMS`. -/
structure FlcoreModuleState where
  default_server_params : List (String × Int)
  deriving DecidableEq

/-- Parsed contents of an input-params file, as consumed by
`FlcoreParams.__init__` (`flcore_params.py` lines 71-94): the optional
`server` section and the (required) `client` section. -/
structure FlcoreFileParams where
  server : Option (List (String × Int))
  client : List (String × Int)

/-- The per-instance `self.input_params` mapping built by
`FlcoreParams.__init__` (the fields written by the constructor; the `server`
value is a dict reference). -/
structure FlcoreParamsObj where
  server : List (String × Int)
  model : String
  train_labels : String
  target_label : String
  extra : List (String × Int)
  deriving DecidableEq

/-- Embeds `FlcoreParams.__init__` (`flcore_params.py` lines 62-94) for
`dataset_id = None` (the dataset-id branch, lines 96-112, writes only to the
fresh per-instance top-level dict and never touches the `server` dict, so it
is irrelevant to the module state). The assignment
`self.input_params = {'server': DEFAULT_SERVER_PARAMS, ...}` stores a
REFERENCE to the module-level dict, so the stores
`self.input_params['server']['num_clients'] = num_clients` (line 69) and
`self.input_params['server'][key] = input_params['server'][key]`
(lines 90-91) write through that reference into `DEFAULT_SERVER_PARAMS`
itself; the embedding threads the module state explicitly and returns the
constructed object together with the state after construction. -/
def FlcoreParams_init (st : FlcoreModuleState) (num_clients : Int)
    (file : Option FlcoreFileParams) : FlcoreParamsObj × FlcoreModuleState :=
  let server0 := setKey st.default_server_params "num_clients" num_clients
  match file with
  | none =>
      ({ server := server0
         model := "random_forest"
         train_labels := String.intercalate " " DEFAULT_TRAIN_LABELS
         target_label := DEFAULT_TARGET_LABEL
         extra := [] },
       { default_server_params := server0 })
  | some fp =>
      let server1 :=
        match fp.server with
        | none => server0
        | some fs =>
            let s1 :=
              if (fs.lookup "num_clients").isSome then server0
              else setKey server0 "num_clients" num_clients
            fs.foldl (fun acc kv => setKey acc kv.1 kv.2) s1
      ({ server := server1
         model := "random_forest"
         train_labels := String.intercalate " " DEFAULT_TRAIN_LABELS
         target_label := DEFAULT_TARGET_LABEL
         extra := fp.client },
       { default_server_params := server1 })

/-- Claim C9 (code bug): constructing `FlcoreParams` mutates the module-level
`DEFAULT_SERVER_PARAMS` dict through the aliased `server` entry. Evaluating
the constructor at `num_clients = 3` (no params file) leaves
`DEFAULT_SERVER_PARAMS` changed, with `num_clients = 3`; moreover a run whose
params file sets `num_rounds = 5` leaves that value behind, so a subsequent
fileless construction observes `num_rounds = 5` while a fresh one observes
`num_rounds = 1` — the runs are not independent. -/
theorem flcoreParams_mutates_DEFAULT_SERVER_PARAMS :
    ((FlcoreParams_init ⟨DEFAULT_SERVER_PARAMS⟩ 3 none).2.default_server_params
        ≠ DEFAULT_SERVER_PARAMS) ∧
    ((FlcoreParams_init ⟨DEFAULT_SERVER_PARAMS⟩ 3
        none).2.default_server_params.lookup "num_clients" = some 3) ∧
    ((FlcoreParams_init
        (FlcoreParams_init ⟨DEFAULT_SERVER_PARAMS⟩ 3
          (some ⟨some [("num_rounds", 5)], []⟩)).2 1
        none).1.server.lookup "num_rounds" = some 5) ∧
    ((FlcoreParams_init ⟨DEFAULT_SERVER_PARAMS⟩ 1
        none).1.server.lookup "num_rounds" = some 1) := by
  refine ⟨?_, by decide, by decide, by decide⟩
  decide

/-! ### Manifest polling (`dt4h-flcore/dt4h_flcore_tool/dt4h_flcore.py`) -/

/-- A per-node entry of the file manifest: a JSON object whose `files` key
(when present) holds the list of file names. -/
abbrev NodeEntry := List (String × List String)

/-- The file manifest returned by `get_execution_file_list`: a mapping from
top-level keys (node names, or the stray `user_id` of an unready response) to
entries. Only key presence matters for the stray `user_id` key, so its value
is embedded as a (irrelevant) `NodeEntry`. -/
abbrev Manifest := List (String × NodeEntry)

/-- Embeds `'user_id' in files` (`dt4h_flcore.py` line 170 tests the
negation): top-level key membership. -/
def hasUserId (m : Manifest) : Bool := (m.lookup "user_id").isSome

/-- Embeds `POLLING_INTERVAL = 2` (`dt4h_flcore.py` line 19). -/
def POLLING_INTERVAL : ℕ := 2

/-- Embeds `FILES_TIMEOUT = 120` (`dt4h_flcore.py` line 22). -/
def FILES_TIMEOUT : ℕ := 120

/-- Embeds the `while not files_loaded and files_timeout > 0` loop of
`dt4h_flcore` (`dt4h_flcore.py` lines 160-174). `fetch j` is the outcome of
the `(j+1)`-th `get_execution_file_list` call (`Except.error` = the call
raised; the surrounding `try` turns that into a failure return, line 169).
`budget` is the local `files_timeout` counter, decremented by
`POLLING_INTERVAL` after every fetch; `k` counts fetches made so far; `last`
is the most recently fetched manifest. On a well-shaped manifest
(`files_loaded = True`) the loop exits after the sleep/decrement with that
manifest; on budget exhaustion it exits with the last fetched manifest.
Returns the manifest the download phase proceeds with, and the number of
fetches made. -/
def manifestLoopAux (fetch : ℕ → Except String Manifest) (budget k : ℕ)
    (last : Option Manifest) : Except String (Option Manifest × ℕ) :=
  if h : 0 < budget then
    match fetch k with
    | .error e => .error ("Failed to get execution files: " ++ e)
    | .ok m =>
        if hasUserId m then
          manifestLoopAux fetch (budget - POLLING_INTERVAL) (k + 1) (some m)
        else .ok (some m, k + 1)
  else .ok (last, k)
termination_by budget
decreasing_by simp [POLLING_INTERVAL]; omega

/-- Embeds the manifest-polling phase of `dt4h_flcore` (`dt4h_flcore.py`
lines 159-174) including line 161, `files_timeout = FILES_TIMEOUT`, which
rebinds the `files_timeout` parameter (line 36) to the module constant
before the loop runs. -/
def manifestPhase (files_timeout : ℕ) (fetch : ℕ → Except String Manifest) :
    Except String (Option Manifest × ℕ) :=
  let files_timeout := FILES_TIMEOUT
  manifestLoopAux fetch files_timeout 0 none

/-- Exhausted budget: the loop exits with the last fetched manifest. -/
theorem manifestLoopAux_zero (fetch : ℕ → Except String Manifest) (k : ℕ)
    (last : Option Manifest) :
    manifestLoopAux fetch 0 k last = .ok (last, k) := by
  rw [manifestLoopAux]
  simp

/-- Step on a malformed (`user_id`-bearing) manifest: decrement and refetch. -/
theorem manifestLoopAux_step_mal (fetch : ℕ → Except String Manifest)
    {budget k : ℕ} {m : Manifest} (last : Option Manifest) (h : 0 < budget)
    (hf : fetch k = Except.ok m) (hm : hasUserId m = true) :
    manifestLoopAux fetch budget k last =
      manifestLoopAux fetch (budget - POLLING_INTERVAL) (k + 1) (some m) := by
  rw [manifestLoopAux]
  simp [h, hf, hm]

/-- Step on a well-shaped manifest: the loop exits with it. -/
theorem manifestLoopAux_step_ok (fetch : ℕ → Except String Manifest)
    {budget k : ℕ} {m : Manifest} (last : Option Manifest) (h : 0 < budget)
    (hf : fetch k = Except.ok m) (hm : hasUserId m = false) :
    manifestLoopAux fetch budget k last = .ok (some m, k + 1) := by
  rw [manifestLoopAux]
  simp [h, hf, hm]

/-- On an always-malformed fetch stream the loop spends its whole budget:
`(budget + 1) / 2` fetches from `k` on, exiting with the last one. -/
theorem manifestLoopAux_all_malformed (g : ℕ → Manifest)
    (hall : ∀ j, hasUserId (g j) = true) :
    ∀ budget k last, 0 < budget →
      manifestLoopAux (fun j => Except.ok (g j)) budget k last =
        .ok (some (g (k + (budget + 1) / 2 - 1)), k + (budget + 1) / 2) := by
  intro budget
  induction budget using Nat.strong_induction_on with
  | _ budget ih =>
    intro k last hb
    rw [manifestLoopAux_step_mal _ last hb rfl (hall k)]
    by_cases h2 : budget ≤ 2
    · have hz : budget - POLLING_INTERVAL = 0 := by
        simp only [POLLING_INTERVAL]; omega
      rw [hz, manifestLoopAux_zero]
      have h1 : (budget + 1) / 2 = 1 := by omega
      simp [h1]
    · have hlt : budget - POLLING_INTERVAL < budget := by
        simp only [POLLING_INTERVAL]; omega
      have hpos : 0 < budget - POLLING_INTERVAL := by
        simp only [POLLING_INTERVAL]; omega
      rw [ih _ hlt (k + 1) (some (g k)) hpos]
      have hc : k + 1 + (budget - POLLING_INTERVAL + 1) / 2 =
          k + (budget + 1) / 2 := by
        simp only [POLLING_INTERVAL]; omega
      rw [hc]

/-- Loop invariant: the fetch count is bounded by the budget, every fetch
before the last one returned a malformed manifest, and the returned manifest
is either the incoming `last` (no fetch happened) or the last fetch's value. -/
theorem manifestLoopAux_inv (fetch : ℕ → Except String Manifest) :
    ∀ budget k0 last m c,
      manifestLoopAux fetch budget k0 last = .ok (m, c) →
        c ≤ k0 + (budget + 1) / 2 ∧
        (∀ j, k0 ≤ j → j + 1 < c →
          ∃ mm, fetch j = Except.ok mm ∧ hasUserId mm = true) ∧
        ((c = k0 ∧ m = last) ∨
          (k0 < c ∧ ∃ mm, fetch (c - 1) = Except.ok mm ∧ m = some mm)) := by
  intro budget
  induction budget using Nat.strong_induction_on with
  | _ budget ih =>
    intro k0 last m c hrun
    by_cases hb : 0 < budget
    · rcases hf : fetch k0 with e | mm
      · rw [manifestLoopAux, dif_pos hb, hf] at hrun
        exact absurd hrun (by simp)
      · by_cases hm : hasUserId mm = true
        · rw [manifestLoopAux_step_mal _ last hb hf hm] at hrun
          have hlt : budget - POLLING_INTERVAL < budget := by
            simp only [POLLING_INTERVAL]; omega
          obtain ⟨hc, hpre, hlast⟩ := ih _ hlt (k0 + 1) (some mm) m c hrun
          refine ⟨by simp only [POLLING_INTERVAL] at hc ⊢; omega, ?_, ?_⟩
          · intro j hj hjc
            rcases Nat.eq_or_lt_of_le hj with hj' | hj'
            · exact ⟨mm, by rw [← hj']; exact ⟨hf, hm⟩⟩
            · exact hpre j hj' hjc
          · rcases hlast with ⟨hceq, hmeq⟩ | ⟨hck, hex⟩
            · exact Or.inr ⟨by omega, ⟨mm, by rw [hceq]; simpa using hf, hmeq⟩⟩
            · exact Or.inr ⟨by omega, hex⟩
        · rw [manifestLoopAux_step_ok _ last hb hf
            (Bool.not_eq_true _ ▸ hm)] at hrun
          obtain ⟨hm', hc'⟩ := by
            have := hrun
            simp only [Except.ok.injEq, Prod.mk.injEq] at this
            exact this
          refine ⟨?_, ?_, ?_⟩
          · omega
          · intro j hj hjc
            omega
          · exact Or.inr ⟨by omega, ⟨mm, by rw [← hc']; simpa using hf,
              hm'.symm⟩⟩
    · rw [manifestLoopAux, dif_neg hb] at hrun
      obtain ⟨hm', hc'⟩ := by
        have := hrun
        simp only [Except.ok.injEq, Prod.mk.injEq] at this
        exact this
      refine ⟨by omega, by omega, Or.inl ⟨hc'.symm, hm'.symm⟩⟩

/-- Claim C5: after the settle wait, the manifest is refetched while it
carries a top-level `user_id` key and budget remains: (1) a manifest
malformed on the first two fetches and valid on the third yields exactly
three fetches (two retries) and downloading proceeds with the third; (2) all
but the last fetch returned malformed manifests, at most
`(FILES_TIMEOUT + 1) / POLLING_INTERVAL = 60` fetches occur, and the phase
proceeds with the last fetched manifest; (3) on an always-malformed stream
the budget is exhausted after 60 fetches and the phase proceeds to downloads
with the 60th manifest instead of aborting. The `files_timeout` argument
`ft` is arbitrary (see line 161). -/
theorem manifest_polling_spec (ft : ℕ) (g : ℕ → Manifest) :
    (hasUserId (g 0) = true → hasUserId (g 1) = true →
      hasUserId (g 2) = false →
      manifestPhase ft (fun j => Except.ok (g j)) = .ok (some (g 2), 3)) ∧
    (∀ m c, manifestPhase ft (fun j => Except.ok (g j)) = .ok (m, c) →
      c ≤ 60 ∧ (∀ j, j + 1 < c → hasUserId (g j) = true) ∧
        (0 < c → m = some (g (c - 1)))) ∧
    ((∀ j, hasUserId (g j) = true) →
      manifestPhase ft (fun j => Except.ok (g j)) = .ok (some (g 59), 60)) := by
  refine ⟨?_, ?_, ?_⟩
  · intro h0 h1 h2
    show manifestLoopAux _ FILES_TIMEOUT 0 none = _
    rw [manifestLoopAux_step_mal _ none (by norm_num [FILES_TIMEOUT]) rfl h0]
    rw [show FILES_TIMEOUT - POLLING_INTERVAL = 118 by
      norm_num [FILES_TIMEOUT, POLLING_INTERVAL]]
    rw [manifestLoopAux_step_mal _ _ (by norm_num) rfl h1]
    rw [show 118 - POLLING_INTERVAL = 116 by norm_num [POLLING_INTERVAL]]
    rw [manifestLoopAux_step_ok _ _ (by norm_num) rfl h2]
  · intro m c hrun
    obtain ⟨hc, hpre, hlast⟩ :=
      manifestLoopAux_inv (fun j => Except.ok (g j)) FILES_TIMEOUT 0 none m c
        hrun
    refine ⟨by simpa [FILES_TIMEOUT] using hc, ?_, ?_⟩
    · intro j hjc
      obtain ⟨mm, hmm, hu⟩ := hpre j (Nat.zero_le j) hjc
      obtain rfl : g j = mm := by simpa using hmm
      exact hu
    · intro hcpos
      rcases hlast with ⟨hceq, _⟩ | ⟨_, mm, hmm, hmeq⟩
      · omega
      · obtain rfl : g (c - 1) = mm := by simpa using hmm
        exact hmeq
  · intro hall
    show manifestLoopAux _ FILES_TIMEOUT 0 none = _
    rw [manifestLoopAux_all_malformed g hall FILES_TIMEOUT 0 none
      (by norm_num [FILES_TIMEOUT])]
    norm_num [FILES_TIMEOUT]

/-- A concrete fetch stream for the C5 witness: malformed (stray `user_id`)
on the first two fetches, a valid per-node manifest from the third on. -/
def c5g : ℕ → Manifest := fun j =>
  if j < 2 then [("user_id", [])]
  else [("BSC", [("files", ["output.txt"])])]

/-- Witness for C5: on `c5g` the collector performs exactly three fetches
(two retries) and proceeds with the third manifest. -/
theorem manifest_polling_spec_witness :
    manifestPhase 7 (fun j => Except.ok (c5g j)) = .ok (some (c5g 2), 3) :=
  (manifest_polling_spec 7 c5g).1 (by decide) (by decide) (by decide)

/-- Claim C10: the manifest-polling phase ignores its `files_timeout`
argument — line 161 of `dt4h_flcore.py` resets the budget to the constant
`FILES_TIMEOUT` before the loop — so two invocations differing only in
`files_timeout` fetch the same number of manifests and produce the same
result. -/
theorem files_timeout_has_no_effect (a b : ℕ)
    (fetch : ℕ → Except String Manifest) :
    manifestPhase a fetch = manifestPhase b fetch ∧
      manifestPhase a fetch = manifestLoopAux fetch FILES_TIMEOUT 0 none :=
  ⟨rfl, rfl⟩

/-! ### Job polling loops (`dt4h_demonstrator.py` lines 313-330 and
`fem_api_client.py` `wait_for_job`, lines 105-120) -/

/-- Outcome of one status fetch: the fetch failed (an exception, or an
error-dict result on which `check_job_finished` is false), or it returned a
status sequence. -/
inductive PollOutcome where
  | fetchFail (msg : String)
  | fetched (status : List StatusEntry)
  deriving DecidableEq

/-- Terminal state of a polling loop, carrying the iteration at which the
loop broke. Elapsed wall-clock time at iteration `k` is `k * interval` (each
iteration starts with one `interval`-long sleep). -/
inductive PollExit where
  | finished (k : ℕ)
  | timedOut (k : ℕ)
  deriving DecidableEq

/-- The iteration at which the loop exited. -/
def PollExit.iter : PollExit → ℕ
  | .finished k => k
  | .timedOut k => k

/-- Embeds the `while True` poll loop of `dt4h_demonstrator`
(`dt4h_demonstrator.py` lines 313-330): each iteration sleeps, fetches the
status, and on a fetch failure executes `continue` — skipping BOTH the
finished check and the timeout check. `stream k` is the outcome of the
fetch in iteration `k` (iterations are 1-based: the first fetch happens
after one sleep). `fuel` bounds the number of iterations unrolled; `none`
means the loop is still running after `fuel` iterations. -/
def demoPollLoop (timeout interval : ℕ) (stream : ℕ → PollOutcome) :
    ℕ → ℕ → Option PollExit
  | 0, _ => none
  | fuel + 1, k =>
    match stream k with
    | .fetchFail _ => demoPollLoop timeout interval stream fuel (k + 1)
    | .fetched s =>
        if check_job_finished s then some (.finished k)
        else if timeout < k * interval then some (.timedOut k)
        else demoPollLoop timeout interval stream fuel (k + 1)

/-- Embeds `FEMAPIClient.wait_for_job` (`fem_api_client.py` lines 105-120):
`execution_status` catches its own exceptions and returns an error dict, on
which `check_job_finished` returns false, so — unlike the demonstrator loop —
the timeout check still runs on an iteration whose fetch failed. -/
def wait_for_job_loop (timeout interval : ℕ) (stream : ℕ → PollOutcome) :
    ℕ → ℕ → Option PollExit
  | 0, _ => none
  | fuel + 1, k =>
    if (match stream k with
        | .fetchFail _ => false
        | .fetched s => check_job_finished s) then some (.finished k)
    else if timeout < k * interval then some (.timedOut k)
    else wait_for_job_loop timeout interval stream fuel (k + 1)

/-- `wait_for_job` exits by iteration `timeout / interval + 1` with elapsed
iterations bounded, for EVERY outcome stream (fetch failures included). -/
theorem wait_for_job_loop_total (t i : ℕ) (stream : ℕ → PollOutcome)
    (hi : 0 < i) :
    ∀ fuel k, k ≤ t / i + 1 → t / i + 2 ≤ k + fuel →
      ∃ r, wait_for_job_loop t i stream fuel k = some r ∧
        r.iter ≤ t / i + 1 := by
  intro fuel
  induction fuel with
  | zero => intro k hk hf; omega
  | succ fuel ih =>
    intro k hk hf
    rw [wait_for_job_loop]
    by_cases hfin : (match stream k with
        | .fetchFail _ => false
        | .fetched s => check_job_finished s) = true
    · exact ⟨.finished k, by rw [if_pos hfin], hk⟩
    · rw [if_neg hfin]
      by_cases ht : t < k * i
      · exact ⟨.timedOut k, by rw [if_pos ht], hk⟩
      · rw [if_neg ht]
        have hkd : k ≤ t / i := (Nat.le_div_iff_mul_le hi).mpr (by omega)
        exact ih (k + 1) (by omega) (by omega)

/-- On a stream with no fetch failures the demonstrator loop and
`wait_for_job` coincide. -/
theorem demoPollLoop_eq_wait_for_job (t i : ℕ) (stream : ℕ → PollOutcome)
    (hs : ∀ k msg, stream k ≠ .fetchFail msg) :
    ∀ fuel k, demoPollLoop t i stream fuel k =
      wait_for_job_loop t i stream fuel k := by
  intro fuel
  induction fuel with
  | zero => intro k; rfl
  | succ fuel ih =>
    intro k
    rw [demoPollLoop, wait_for_job_loop]
    rcases h : stream k with msg | s
    · exact absurd h (hs k msg)
    · simp only [h]
      by_cases hfin : check_job_finished s = true
      · simp [hfin]
      · by_cases ht : t < k * i
        · simp [hfin, ht]
        · simp [hfin, ht, ih (k + 1)]

/-- Counterexample to claim C3: with `job_timeout = 3` and
`poll_interval = 2`, a stream whose first two fetches fail and whose third
returns a still-empty status makes the demonstrator loop transition to
`TimedOut` only at iteration 3, elapsed `3 * 2 = 6 > 3 + 2`: the `continue`
on a failed fetch skips the timeout check, so the bound
`job_timeout + poll_interval` fails on fetch-failing sequences (and under
perpetual fetch failure the loop never reaches a timeout check at all). -/
theorem demoPollLoop_exceeds_bound :
    demoPollLoop 3 2
        (fun k => if k < 3 then PollOutcome.fetchFail "connection error"
          else PollOutcome.fetched []) 10 1 =
      some (PollExit.timedOut 3) ∧
    3 + 2 < (PollExit.timedOut 3).iter * 2 := ⟨by decide, by decide⟩

/-- Claim C3 (amended): `wait_for_job` always exits — for every outcome
stream, fetch failures included — within `timeout / interval + 1` iterations
and with elapsed time at most `job_timeout + poll_interval`; the
demonstrator's poll loop satisfies the same bound on every stream without
fetch failures (a failed fetch there skips the timeout check via
`continue`, so on fetch-failing streams its overshoot is unbounded, see the
counterexample). -/
theorem poll_loop_timeout_bound (t i : ℕ) (stream : ℕ → PollOutcome)
    (hi : 0 < i) :
    (∃ r, wait_for_job_loop t i stream (t / i + 1) 1 = some r ∧
      r.iter * i ≤ t + i) ∧
    ((∀ k msg, stream k ≠ .fetchFail msg) →
      ∃ r, demoPollLoop t i stream (t / i + 1) 1 = some r ∧
        r.iter * i ≤ t + i) := by
  have bound : ∀ r : PollExit, r.iter ≤ t / i + 1 → r.iter * i ≤ t + i := by
    intro r hr
    calc r.iter * i ≤ (t / i + 1) * i := Nat.mul_le_mul_right i hr
      _ = t / i * i + i := by ring
      _ ≤ t + i := by have := Nat.div_mul_le_self t i; omega
  constructor
  · obtain ⟨r, hr, hiter⟩ :=
      wait_for_job_loop_total t i stream hi (t / i + 1) 1
        (Nat.succ_le_succ (Nat.zero_le _)) (le_of_eq (by ring))
    exact ⟨r, hr, bound r hiter⟩
  · intro hs
    obtain ⟨r, hr, hiter⟩ :=
      wait_for_job_loop_total t i stream hi (t / i + 1) 1
        (Nat.succ_le_succ (Nat.zero_le _)) (le_of_eq (by ring))
    exact ⟨r, by rw [demoPollLoop_eq_wait_for_job t i stream hs]; exact hr,
      bound r hiter⟩

/-- Witness for C3 (amended) at `timeout = 4`, `interval = 2` and the
all-successful stream returning an empty status each time. -/
theorem poll_loop_timeout_bound_witness :
    (∃ r, wait_for_job_loop 4 2 (fun _ => PollOutcome.fetched [])
        (4 / 2 + 1) 1 = some r ∧ r.iter * 2 ≤ 4 + 2) ∧
    (∃ r, demoPollLoop 4 2 (fun _ => PollOutcome.fetched [])
        (4 / 2 + 1) 1 = some r ∧ r.iter * 2 ≤ 4 + 2) :=
  ⟨(poll_loop_timeout_bound 4 2 (fun _ => PollOutcome.fetched [])
      (by decide)).1,
   (poll_loop_timeout_bound 4 2 (fun _ => PollOutcome.fetched [])
      (by decide)).2 (fun k msg h => PollOutcome.noConfusion h)⟩

/-! ### Node heartbeat (`demo/vre_template_tool/fem_api_client.py` lines
51-68 and `dt4h-flcore/vre_tool_dockerized/.../fem_api_client.py` lines
87-106) -/

/-- Outcome of one heartbeat GET for a node: the request raised (caught by
the per-node `try`), or it returned a JSON object, or a JSON list of
objects. -/
inductive HbResp where
  | raised (msg : String)
  | objResp (record : List (String × String))
  | listResp (items : List (List (String × String)))

/-- Python `xs[0]`: raises `IndexError` on an empty list. -/
def pySubZero {α : Type} : List α → Except String α
  | [] => .error "IndexError: list index out of range"
  | x :: _ => .ok x

/-- Per-node processing of the demo-variant `FEMAPIClient.node_heartbeat`
(`demo/.../fem_api_client.py` lines 57-67): the `try` covers only the GET
(a raised request is captured as an error record), but the subsequent
`isinstance(..., list)` unwrap `hbeats[node_id][0]` sits OUTSIDE the `try`
and is unguarded, so an empty-list response raises `IndexError`. -/
def hbRecordDemo : HbResp → Except String (List (String × String))
  | .raised m => .ok [("error", m)]
  | .objResp r => .ok r
  | .listResp items => pySubZero items

/-- Per-node processing of the dockerized `FEMAPIClient.node_heartbeat`
(`vre_tool_dockerized/.../fem_api_client.py` lines 93-105): the unwrap is
guarded by `len(...) > 0`, an empty list response is kept as the falsy value
`[]`, and an unwrapped first element of length 0 becomes an error record. -/
def hbRecordDock : HbResp → Except String (List (String × String))
  | .raised m => .ok [("error", m)]
  | .objResp r => .ok r
  | .listResp items =>
      if 0 < items.length then
        match pySubZero items with
        | .error e => .error e
        | .ok first =>
            if first.length = 0 then
              .ok [("error", "No heartbeat data available")]
            else .ok first
      else .ok []

/-- Embeds the demo-variant `node_heartbeat` loop over its node list
(`demo/.../fem_api_client.py` lines 56-68): per-node records are accumulated
in order into `health_sites_data`; an uncaught exception aborts the loop,
leaving the remaining nodes without records. -/
def node_heartbeat_demo (nodes : List String) (resp : String → HbResp) :
    Except String (List (String × List (String × String))) :=
  match nodes with
  | [] => .ok []
  | node :: rest =>
      match hbRecordDemo (resp node) with
      | .error e => .error e
      | .ok r =>
          match node_heartbeat_demo rest resp with
          | .error e => .error e
          | .ok tl => .ok ((node, r) :: tl)

/-- Embeds the dockerized `node_heartbeat` loop over its node list
(`vre_tool_dockerized/.../fem_api_client.py` lines 92-106). -/
def node_heartbeat_dock (nodes : List String) (resp : String → HbResp) :
    Except String (List (String × List (String × String))) :=
  match nodes with
  | [] => .ok []
  | node :: rest =>
      match hbRecordDock (resp node) with
      | .error e => .error e
      | .ok r =>
          match node_heartbeat_dock rest resp with
          | .error e => .error e
          | .ok tl => .ok ((node, r) :: tl)

/-- The stored per-node health value as the spec describes the quirk
handling: a per-node failure is captured as an error record, a non-empty
list response is unwrapped to its first element (an empty first element
becoming an error record), and an empty-list response is kept as the falsy
"no data" value `[]`. -/
def hbStoreSpec : HbResp → List (String × String)
  | .raised m => [("error", m)]
  | .objResp r => r
  | .listResp [] => []
  | .listResp (x :: _) =>
      if x.length = 0 then [("error", "No heartbeat data available")] else x

/-- The dockerized per-node processing never raises and matches the spec's
description of the quirk handling. -/
theorem hbRecordDock_eq (r : HbResp) :
    hbRecordDock r = .ok (hbStoreSpec r) := by
  cases r with
  | raised m => rfl
  | objResp rec => rfl
  | listResp items =>
      cases items with
      | nil => rfl
      | cons x xs =>
          rw [hbRecordDock, if_pos (by simp : 0 < (x :: xs).length)]
          cases x with
          | nil => rfl
          | cons p ps => rfl

/-- The dockerized heartbeat loop produces one record per node, in order. -/
theorem node_heartbeat_dock_go (resp : String → HbResp) (nodes : List String) :
    node_heartbeat_dock nodes resp =
      Except.ok (nodes.map fun n => (n, hbStoreSpec (resp n))) := by
  induction nodes with
  | nil => rfl
  | cons n ns ih =>
      rw [node_heartbeat_dock, hbRecordDock_eq, ih]
      rfl

/-- Counterexample to claim C4: in the demo-variant heartbeat checker an
empty-list response for the first node raises `IndexError` out of
`node_heartbeat` (the unwrap is outside the `try`), so no health record is
produced for the remaining node either. -/
theorem node_heartbeat_demo_raises_on_empty_list :
    node_heartbeat_demo ["BSC", "UB"]
        (fun n => if n = "BSC" then HbResp.listResp []
          else HbResp.objResp [("state", "running")]) =
      .error "IndexError: list index out of range" := by
  rfl

/-- Claim C4 (amended): the dockerized heartbeat checker satisfies the
claimed behaviour for every node list and response shape — it never raises,
produces one health record per node in order, unwraps a non-empty list
response to its first element, records an empty-list response as the falsy
"no data" value `[]` (distinct from any non-empty record), and captures a
per-node request failure as a per-node error record; the demo-variant
checker instead raises on an empty-list response (see the counterexample). -/
theorem node_heartbeat_dock_spec (nodes : List String)
    (resp : String → HbResp) :
    node_heartbeat_dock nodes resp =
      .ok (nodes.map fun n => (n, hbStoreSpec (resp n))) ∧
    hbStoreSpec (HbResp.listResp []) = [] ∧
    (∀ x xs, x ≠ [] → hbStoreSpec (HbResp.listResp (x :: xs)) = x) ∧
    (∀ m, hbStoreSpec (HbResp.raised m) = [("error", m)]) := by
  refine ⟨?_, rfl, ?_, fun m => rfl⟩
  · exact node_heartbeat_dock_go resp nodes
  · intro x xs hx
    simp [hbStoreSpec, List.length_eq_zero, hx]

/-- Witness for C4 (amended) at a concrete node list and responses: one node
answering with a singleton list (unwrapped), one with an empty list (no
data), one raising. -/
theorem node_heartbeat_dock_spec_witness :
    node_heartbeat_dock ["BSC", "UB", "HULAFE"]
        (fun n => if n = "BSC" then HbResp.listResp [[("state", "running")]]
          else if n = "UB" then HbResp.listResp []
          else HbResp.raised "timeout") =
      .ok (["BSC", "UB", "HULAFE"].map fun n =>
        (n, hbStoreSpec ((fun n =>
          if n = "BSC" then HbResp.listResp [[("state", "running")]]
          else if n = "UB" then HbResp.listResp []
          else HbResp.raised "timeout") n))) ∧
    hbStoreSpec (HbResp.listResp [[("state", "running")]]) =
      [("state", "running")] :=
  ⟨(node_heartbeat_dock_spec _ _).1,
   (node_heartbeat_dock_spec [] (fun _ => HbResp.raised "")).2.2.1
     [("state", "running")] [] (by decide)⟩

/-! ### Job submission (`dt4h_demonstrator.py` `execute_tool`, lines 81-128,
and `demo/.../fem_api_client.py` `FEMAPIClient.submit_tool`, lines 70-103) -/

/-- The decoded JSON object answering the submission POST: its `status` and
`execution_id` fields (absent key = `none`). -/
structure SubmitResp where
  status : Option String
  execution_id : Option String
  deriving DecidableEq

/-- The query-parameter suffix built for the submission URL: `server_node`
if set, then one `client_nodes` parameter per client. -/
def submitQuery (server_node : Option String) (client_nodes : List String) :
    String :=
  let url_params :=
    (match server_node with
      | some s => ["server_node=" ++ s]
      | none => []) ++
    client_nodes.map (fun node => "client_nodes=" ++ node)
  if url_params.isEmpty then "" else "?" ++ String.intercalate "&" url_params

/-- Embeds `execute_tool` (`dt4h_demonstrator.py` lines 81-128): an empty
`tool_name` raises `ValueError` before anything else; otherwise one POST to
`tools/job/{tool_name}?...` is issued, and a response without a success
status or without an `execution_id` raises `Exception("Submission failed")`.
Returns the result together with the list of HTTP requests issued. (The
params-serialization `try` of lines 110-114 cannot fail for the
JSON-representable params its callers build and is not modelled.) -/
def execute_tool (tool_name : String) (server_node : Option String)
    (client_nodes : List String) (postResp : SubmitResp) :
    Except String SubmitResp × List String :=
  if tool_name = "" then (.error "ValueError: Tool name must be provided", [])
  else
    let url := "tools/job/" ++ tool_name ++ submitQuery server_node client_nodes
    if postResp.status ≠ some "success" ∨ postResp.execution_id = none then
      (.error "Submission failed", [url])
    else (.ok postResp, [url])

/-- Embeds `FEMAPIClient.submit_tool` (`demo/.../fem_api_client.py` lines
70-103) up to the submission-response handling: no `tool_name` validation is
performed; the URL is `f"{URL_SUBMIT}/{tool_name}"` with
`URL_SUBMIT = 'tools/job/'` (note the double slash), and the POST is issued
unconditionally. (The optional `wait_for_job` continuation happens after the
POST and is modelled separately by `wait_for_job_loop`.) -/
def submit_tool (tool_name : String) (server_node : Option String)
    (client_nodes : List String) (postResp : SubmitResp) :
    Except String SubmitResp × List String :=
  let url := "tools/job/" ++ "/" ++ tool_name ++
    submitQuery server_node client_nodes
  if postResp.status ≠ some "success" ∨ postResp.execution_id = none then
    (.error "Submission failed", [url])
  else (.ok postResp, [url])

/-- Counterexample to claim C6: `FEMAPIClient.submit_tool` called with an
empty `tool_name` issues the submission POST (one HTTP call, to
`tools/job//?...`) and reports success — it neither fails fast nor issues
zero HTTP calls. -/
theorem submit_tool_empty_tool_name_posts :
    (submit_tool "" (some "BSC") ["UB"]
        ⟨some "success", some "exec-1"⟩).2 =
      ["tools/job//?server_node=BSC&client_nodes=UB"] ∧
    (submit_tool "" (some "BSC") ["UB"] ⟨some "success", some "exec-1"⟩).1 =
      .ok ⟨some "success", some "exec-1"⟩ := by
  constructor <;> rfl

/-- Claim C6 (amended): the demonstrator's `execute_tool` fails fast on an
empty `tool_name` — it raises `ValueError` (the spec's `ConfigError`) with
zero HTTP calls issued, for every node configuration and every remote
response; `FEMAPIClient.submit_tool` performs no such validation (see the
counterexample) and relies on its callers' entry checks. -/
theorem execute_tool_empty_tool_name_no_calls (server_node : Option String)
    (client_nodes : List String) (postResp : SubmitResp) :
    execute_tool "" server_node client_nodes postResp =
      (.error "ValueError: Tool name must be provided", []) := rfl

/-! ### Result downloads (`dt4h_flcore.py` lines 179-193 and
`dt4h_demonstrator.py` lines 344-358) -/

/-- Outcome of one step of the download loop. -/
inductive DlOutcome where
  | wrote (node file : String)
  | emptyContent (node file : String)
  | failed (node file : String) (msg : String)
  | skippedNode (node : String)
  deriving DecidableEq

/-- Per-file body of the download loop: the `try` covers the download and
the write, so a raised download is captured as a `failed` outcome; falsy
content yields a warning (`emptyContent`); otherwise the file is written
(file-system writes are modelled as succeeding). -/
def downloadNodeFiles
    (download : String → String → Except String (Option String))
    (node : String) (files : List String) : List DlOutcome :=
  files.map fun file =>
    match download node file with
    | .error e => .failed node file e
    | .ok none => .emptyContent node file
    | .ok (some _) => .wrote node file

/-- Embeds the download loop: for each node of `nodes` (the iteration order
of `all_nodes`), `if node not in files or 'files' not in files[node]` logs a
warning and skips the node; otherwise each listed file is downloaded with
per-file failure capture. -/
def downloadFiles (nodes : List String) (files : Manifest)
    (download : String → String → Except String (Option String)) :
    List DlOutcome :=
  nodes.flatMap fun node =>
    match files.lookup node with
    | none => [.skippedNode node]
    | some entry =>
        match entry.lookup "files" with
        | none => [.skippedNode node]
        | some fs => downloadNodeFiles download node fs

/-- The manifest's file list for a node, when the node has an entry with a
`files` key. -/
def manifestFiles (files : Manifest) (node : String) :
    Option (List String) :=
  match files.lookup node with
  | none => none
  | some entry => entry.lookup "files"

/-- The (node, file) pairs for which a download was attempted. -/
def dlAttempts : List DlOutcome → List (String × String)
  | [] => []
  | .wrote n f :: rest => (n, f) :: dlAttempts rest
  | .emptyContent n f :: rest => (n, f) :: dlAttempts rest
  | .failed n f _ :: rest => (n, f) :: dlAttempts rest
  | .skippedNode _ :: rest => dlAttempts rest

/-- `dlAttempts` distributes over concatenation. -/
theorem dlAttempts_append (a b : List DlOutcome) :
    dlAttempts (a ++ b) = dlAttempts a ++ dlAttempts b := by
  induction a with
  | nil => rfl
  | cons o rest ih => cases o <;> simp [dlAttempts, ih]

/-- Every listed file of an eligible node is attempted, whatever the
download oracle answers. -/
theorem dlAttempts_downloadNodeFiles
    (download : String → String → Except String (Option String))
    (node : String) (fs : List String) :
    dlAttempts (downloadNodeFiles download node fs) =
      fs.map fun f => (node, f) := by
  induction fs with
  | nil => rfl
  | cons f rest ih =>
      cases h : download node f <;>
        simp [downloadNodeFiles, dlAttempts, h, ← ih] <;>
        rename_i v <;> cases v <;> simp [dlAttempts]

/-- Claim C7: in the download loop, (1) the download attempts are exactly
one per listed file of each node that has a manifest entry with a `files`
key — independent of any per-file failures, so a failed download aborts
neither the node's remaining files nor the other nodes; (2) a node with no
manifest entry or whose entry lacks the `files` key is skipped (with a
warning outcome) rather than raising; (3) consequently the attempted
(node, file) pairs do not depend on the download oracle at all. -/
theorem download_loop_spec (nodes : List String) (files : Manifest)
    (download download' : String → String → Except String (Option String)) :
    dlAttempts (downloadFiles nodes files download) =
      (nodes.flatMap fun n =>
        ((manifestFiles files n).getD []).map fun f => (n, f)) ∧
    (∀ n ∈ nodes, manifestFiles files n = none →
      DlOutcome.skippedNode n ∈ downloadFiles nodes files download) ∧
    dlAttempts (downloadFiles nodes files download) =
      dlAttempts (downloadFiles nodes files download') := by
  have main : ∀ (dl : String → String → Except String (Option String)),
      dlAttempts (downloadFiles nodes files dl) =
        (nodes.flatMap fun n =>
          ((manifestFiles files n).getD []).map fun f => (n, f)) := by
    intro dl
    induction nodes with
    | nil => rfl
    | cons n ns ih =>
        rw [downloadFiles, List.flatMap_cons, dlAttempts_append,
          List.flatMap_cons]
        rw [downloadFiles] at ih
        rw [ih, manifestFiles]
        cases hn : files.lookup n with
        | none => simp [dlAttempts]
        | some entry =>
            cases he : entry.lookup "files" with
            | none => simp [he, dlAttempts]
            | some fs => simp [he, dlAttempts_downloadNodeFiles]
  refine ⟨main download, ?_, (main download).trans (main download').symm⟩
  intro n hn hmf
  rw [downloadFiles]
  rw [List.mem_flatMap]
  refine ⟨n, hn, ?_⟩
  rw [manifestFiles] at hmf
  cases hl : files.lookup n with
  | none => simp
  | some entry =>
      rw [hl] at hmf
      change List.lookup "files" entry = none at hmf
      simp [hmf]

/-- Witness for C7 at a concrete manifest: node `BSC` has listed files, node
`UB` has no manifest entry, and every download fails. -/
theorem download_loop_spec_witness :
    dlAttempts (downloadFiles ["BSC", "UB"]
        [("BSC", [("files", ["model.json", "log_server.txt"])])]
        (fun _ _ => .error "boom")) =
      (["BSC", "UB"].flatMap fun n =>
        ((manifestFiles [("BSC", [("files", ["model.json", "log_server.txt"])])]
          n).getD []).map fun f => (n, f)) ∧
    DlOutcome.skippedNode "UB" ∈ downloadFiles ["BSC", "UB"]
        [("BSC", [("files", ["model.json", "log_server.txt"])])]
        (fun _ _ => .error "boom") :=
  ⟨(download_loop_spec ["BSC", "UB"] _ _ (fun _ _ => .ok none)).1,
   (download_loop_spec ["BSC", "UB"] _ _ (fun _ _ => .ok none)).2.1 "UB"
     (by decide) (by decide)⟩

/-! ### The demonstrator pipeline (`dt4h_demonstrator.py` lines 211-366) -/

/-- The result mapping returned by the orchestrator (the keys of the dicts
returned at lines 242, 257, 271, 288, 308, 341 and 360-366). -/
structure RunResult where
  status : String
  message : String
  execution_id : Option String := none
  execution_logs : Option String := none
  files : Option Manifest := none
  deriving DecidableEq

/-- A `{'status': 'failure', 'message': ...}` mapping. -/
def failure_result (msg : String) : RunResult :=
  { status := "failure", message := msg }

/-- Response of `get_execution_file_list` as seen at lines 334-338: a JSON
object, a JSON list of objects (unwrapped to its first element inside the
`try`, so an empty list raises `IndexError` there and is caught), or an
exception raised by the call itself. -/
inductive FilesResp where
  | asDict (m : Manifest)
  | asList (ms : List Manifest)
  | raised (msg : String)

/-- Value returned by the demonstrator's module-level `node_heartbeat`
(`dt4h_demonstrator.py` lines 72-77): `do_get_request` catches transport
failures and returns the `{'error': ...}` dict, so the call never raises —
its value is a JSON object (including that error dict) or a JSON list of
objects. -/
inductive DemoHbResp where
  | objResp (record : List (String × String))
  | listResp (items : List (List (String × String)))

/-- Python falsiness of a heartbeat value (`if not health_check_data`,
lines 240 and 255): an empty dict or an empty list. -/
def pyFalsy : DemoHbResp → Bool
  | .objResp r => r.isEmpty
  | .listResp items => items.isEmpty

/-- Python `health_check_data[0]` (lines 244/246 and 259/261): on a list it
is the first element (`IndexError` when empty); on a dict it is a lookup of
the key `0`, which raises `KeyError` — there is no `try` around it. -/
def pyIndexZero : DemoHbResp → Except String (List (String × String))
  | .listResp (x :: _) => .ok x
  | .listResp [] => .error "IndexError: list index out of range"
  | .objResp _ => .error "KeyError: 0"

/-- `'state' in rec and rec['state'] == 'running'` (lines 244 and 259). -/
def isRunning (rec : List (String × String)) : Bool :=
  match rec.lookup "state" with
  | some v => v == "running"
  | none => false

/-- Outcome of one orchestrator step: an exception propagating out of the
function, an early `return` of a result mapping, or falling through to the
next step. -/
inductive StepResult (α : Type) where
  | raised (msg : String)
  | early (r : RunResult)
  | next (a : α)

/-- A step outcome that is not a raw exception, and whose early return (if
any) is a failure mapping. -/
def StepResult.okShape {α : Type} : StepResult α → Prop
  | .raised _ => False
  | .early r => r.status = "failure"
  | .next _ => True

/-- Embeds the client part of the health-check branch
(`dt4h_demonstrator.py` lines 251-261): per client node, a falsy heartbeat
value returns the failure mapping; otherwise `health_check_data[0]` is
indexed with no `try` (raising on object-shaped values) and the node is
selected when its record's state is `running`. (The comma-split
normalization of a string-typed client list, lines 248-249, cannot raise
and is elided; the `health_data.json` write, lines 262-264, is a
file-system effect modelled as succeeding.) -/
def demoClientHealth (hb : String → DemoHbResp) :
    List String → StepResult (List String)
  | [] => .next []
  | node :: rest =>
      if pyFalsy (hb node) then
        .early (failure_result "No client heartbeat data found.")
      else
        match pyIndexZero (hb node) with
        | .error e => .raised e
        | .ok rec =>
            match demoClientHealth hb rest with
            | .raised e => .raised e
            | .early r => .early r
            | .next actives =>
                .next (if isRunning rec then node :: actives else actives)

/-- Embeds the health-check branch (`dt4h_demonstrator.py` lines 233-264):
server heartbeat first (falsy value → failure mapping; unguarded `[0]`
indexing at lines 244/246), then the client loop. Falls through with the
active server (if its state is `running`) and the active clients. -/
def demoHealthStep (hb : String → DemoHbResp) (server_node : String)
    (client_node_list : List String) :
    StepResult (Option String × List String) :=
  if pyFalsy (hb server_node) then
    .early (failure_result "No server heartbeat data found.")
  else
    match pyIndexZero (hb server_node) with
    | .error e => .raised e
    | .ok rec =>
        let server_active :=
          if isRunning rec then some server_node else none
        match demoClientHealth hb client_node_list with
        | .raised e => .raised e
        | .early r => .early r
        | .next actives => .next (server_active, actives)

/-- Embeds node selection (`dt4h_demonstrator.py` lines 229-264): with
`health_check` disabled the caller-supplied nodes are trusted verbatim,
otherwise the health-check branch runs. -/
def demoNodeSelection (hb : String → DemoHbResp) (health_check : Bool)
    (server_node : String) (client_node_list : List String) :
    StepResult (Option String × List String) :=
  if health_check then demoHealthStep hb server_node client_node_list
  else .next (some server_node, client_node_list)

/-- The `input_params_path` argument, by the cases the loading code
distinguishes (`dt4h_demonstrator.py` lines 275-291): no path; a path whose
`open` raises `FileNotFoundError` (caught by NEITHER `except` clause); a
`.json` path that parses or raises `json.JSONDecodeError` (caught); a
`.yml`/`.yaml` path that parses or raises `yaml.YAMLError` (caught); any
other extension, for which line 285 raises `ValueError` — which the two
`except` clauses do not catch either. The parsed params dict itself only
feeds `num_clients` and the submission body and is not modelled further. -/
inductive ParamsInput where
  | noPath
  | fileMissing
  | jsonFile (parses : Bool)
  | yamlFile (parses : Bool)
  | otherExt

/-- Embeds the params-file loading step (`dt4h_demonstrator.py` lines
275-291); the exception text inside the failure messages is abbreviated. -/
def demoParamsStep : ParamsInput → StepResult Unit
  | .noPath => .next ()
  | .fileMissing => .raised "FileNotFoundError: input params file"
  | .jsonFile true => .next ()
  | .jsonFile false =>
      .early (failure_result
        "Failed to load input parameters file: JSONDecodeError")
  | .yamlFile true => .next ()
  | .yamlFile false =>
      .early (failure_result
        "Failed to load input parameters file: YAMLError")
  | .otherExt => .raised "ValueError: Unsupported file format. Use JSON or YAML."

/-- Remote behaviour for one demonstrator run: the per-node heartbeat
values, the decoded submission response, the per-iteration status-fetch
outcomes, the outcome of the (unguarded, line 324/lines 158-169) logs
fetch, the file-manifest response, and the per-file download outcomes. -/
structure DemoEnv where
  heartbeat : String → DemoHbResp
  submitResp : SubmitResp
  statusStream : ℕ → PollOutcome
  logsResp : Except String String
  filesResp : FilesResp
  download : String → String → Except String (Option String)

/-- The `execution_logs` value after the poll loop exits: fetched via
`get_execution_logs` on `Finished` (line 324 — a direct `requests.get` with
no `try`, so its exception propagates), the sentinel text on timeout
(line 329). -/
def pollLogs (env : DemoEnv) (pexit : PollExit) : Except String String :=
  match pexit with
  | .finished _ => env.logsResp
  | .timedOut _ => .ok "Job timed out before completion."

/-- Tail of the demonstrator once a manifest is in hand (lines 344-366): run
the download loop over `all_nodes` (its outcomes are only logged; file
writes are modelled as succeeding) and build the success mapping. The
Python `repr` of the client list inside the message is abbreviated to a
comma-joined form. -/
def demoFinish (env : DemoEnv) (tool_name server_node : String)
    (client_node_list : List String) (execution_id : Option String)
    (execution_logs : String) (m : Manifest) : RunResult :=
  let _outcomes :=
    downloadFiles ((server_node :: client_node_list).dedup) m env.download
  { status := "success"
    message := "Tool \"" ++ tool_name ++ "\" run on server " ++ server_node ++
      " and clients " ++ String.intercalate "," client_node_list ++ "."
    execution_id := execution_id
    execution_logs := some execution_logs
    files := some m }

/-- The manifest fetch and download steps (lines 333-366): the fetch and
the singleton-list unwrap sit inside a `try`, so a raised fetch and the
empty-list `IndexError` both become a failure mapping; otherwise downloads
run and the success mapping is returned. -/
def demoFilesStep (env : DemoEnv) (tool_name server_node : String)
    (client_node_list : List String) (execution_id : Option String)
    (execution_logs : String) : RunResult :=
  match env.filesResp with
  | .raised e => failure_result ("Failed to get execution files: " ++ e)
  | .asList [] =>
      failure_result
        ("Failed to get execution files: " ++
          "IndexError: list index out of range")
  | .asList (m :: _) =>
      demoFinish env tool_name server_node client_node_list execution_id
        execution_logs m
  | .asDict m =>
      demoFinish env tool_name server_node client_node_list execution_id
        execution_logs m

/-- Steps of `dt4h_demonstrator` after the poll loop exits (lines 323-366):
fetch logs (or use the timeout sentinel), then the file steps. An `.error`
value is an exception propagating out of `dt4h_demonstrator`. -/
def demoAfterPoll (env : DemoEnv) (tool_name server_node : String)
    (client_node_list : List String) (execution_id : Option String)
    (pexit : PollExit) : Except String RunResult :=
  match pollLogs env pexit with
  | .error e => .error e
  | .ok execution_logs =>
      .ok (demoFilesStep env tool_name server_node client_node_list
        execution_id execution_logs)

/-- Python falsiness of `server_active_node` at line 269: `None` (health
check found the server not running) or the empty string. -/
def pyFalsyOptStr : Option String → Bool
  | none => true
  | some s => s = ""

/-- Embeds `dt4h_demonstrator` (`dt4h_demonstrator.py` lines 211-366) from
node selection onward (token acquisition, lines 222-228, precedes every
step the claim covers): node selection (with or without health checks),
the active-nodes check (lines 269-271), params-file loading (lines
275-291), submission, the poll loop, logs, manifest and downloads. The
remote behaviour is `env`; the unbounded poll loop of step 2 is
fuel-bounded and `none` means the run is still polling. An `.error` value
is a raw exception propagating out of the function. The node-set `repr`
inside the submit-failure message is elided; when polling is reached, the
active server is a non-falsy `some`, extracted with `getD`. -/
def dt4h_demonstrator (env : DemoEnv) (tool_name : String)
    (server_node : String) (client_node_list : List String)
    (health_check : Bool) (input_params_path : ParamsInput)
    (job_timeout interval fuel : ℕ) : Option (Except String RunResult) :=
  match demoNodeSelection env.heartbeat health_check server_node
      client_node_list with
  | .raised e => some (.error e)
  | .early r => some (.ok r)
  | .next sel =>
      if pyFalsyOptStr sel.1 ∨ sel.2.length = 0 then
        some (.ok (failure_result "No enough active nodes found."))
      else
        match demoParamsStep input_params_path with
        | .raised e => some (.error e)
        | .early r => some (.ok r)
        | .next _ =>
            match execute_tool tool_name sel.1 sel.2 env.submitResp with
            | (.error e, _) =>
                some (.ok (failure_result
                  ("Failed to execute tool " ++ tool_name ++ " on nodes: "
                    ++ e)))
            | (.ok step_one, _) =>
                (demoPollLoop job_timeout interval env.statusStream fuel
                    1).map
                  (demoAfterPoll env tool_name (sel.1.getD server_node)
                    sel.2 step_one.execution_id)

/-- Remote behaviour refuting claim C2: every heartbeat reports a running
node, submission succeeds, the first poll reports all nodes finished, and
the logs fetch raises a connection error. -/
def c2env : DemoEnv where
  heartbeat := fun _ => .listResp [[("state", "running")]]
  submitResp := ⟨some "success", some "exec-1"⟩
  statusStream := fun _ => .fetched [[("node", "BSC"), ("status", "finished")]]
  logsResp := .error "ConnectionError: connection refused"
  filesResp := .asDict []
  download := fun _ _ => .ok none

/-- Counterexample to claim C2: under `c2env` (health checks disabled, no
params file) the demonstrator run ends with a raw exception —
`get_execution_logs` (line 324) is called outside any `try`, so its
exception propagates to the caller instead of being converted to a
`{status: failure}` mapping. -/
theorem dt4h_demonstrator_raises_on_logs_failure :
    dt4h_demonstrator c2env "fLcore" "BSC" ["UB"] false .noPath 300 2 5 =
      some (.error "ConnectionError: connection refused") := by
  rfl

/-- The file steps always produce a success or failure mapping. -/
theorem demoFilesStep_status (env : DemoEnv) (tool_name server_node : String)
    (client_node_list : List String) (execution_id : Option String)
    (logs : String) :
    (demoFilesStep env tool_name server_node client_node_list execution_id
        logs).status = "success" ∨
      (demoFilesStep env tool_name server_node client_node_list execution_id
        logs).status = "failure" := by
  rw [demoFilesStep]
  rcases hf : env.filesResp with mf | ms | e
  · exact Or.inl rfl
  · cases ms with
    | nil => exact Or.inr rfl
    | cons mf rest => exact Or.inl rfl
  · exact Or.inr rfl

/-- Post-poll steps return a mapping whenever the logs fetch does not
raise. -/
theorem demoAfterPoll_ok (env : DemoEnv) (tool_name server_node : String)
    (client_node_list : List String) (execution_id : Option String)
    (pexit : PollExit) (hlogs : ∀ msg, env.logsResp ≠ .error msg) :
    ∃ m, demoAfterPoll env tool_name server_node client_node_list
        execution_id pexit = .ok m ∧
      (m.status = "success" ∨ m.status = "failure") := by
  cases pexit with
  | timedOut k =>
      exact ⟨_, rfl, demoFilesStep_status env tool_name server_node
        client_node_list execution_id "Job timed out before completion."⟩
  | finished k =>
      cases hl : env.logsResp with
      | error msg => exact absurd hl (hlogs msg)
      | ok logs =>
          refine ⟨demoFilesStep env tool_name server_node client_node_list
            execution_id logs, ?_,
            demoFilesStep_status env tool_name server_node client_node_list
              execution_id logs⟩
          rw [demoAfterPoll, pollLogs, hl]

/-- When no heartbeat value is a non-empty object, the client health loop
neither raises nor early-returns anything but a failure mapping. -/
theorem demoClientHealth_okShape (hb : String → DemoHbResp)
    (hhb : ∀ n p ps, hb n ≠ .objResp (p :: ps)) :
    ∀ cs : List String, (demoClientHealth hb cs).okShape := by
  intro cs
  induction cs with
  | nil => trivial
  | cons node rest ih =>
      rw [demoClientHealth]
      cases h : hb node with
      | objResp rec =>
          cases rec with
          | nil => exact rfl
          | cons p ps => exact absurd h (hhb node p ps)
      | listResp items =>
          cases items with
          | nil => exact rfl
          | cons x xs =>
              cases hr : demoClientHealth hb rest <;>
                (rw [hr] at ih; exact ih)

/-- Same for the whole health-check branch (server part included). -/
theorem demoHealthStep_okShape (hb : String → DemoHbResp)
    (hhb : ∀ n p ps, hb n ≠ .objResp (p :: ps)) (server_node : String)
    (cs : List String) : (demoHealthStep hb server_node cs).okShape := by
  rw [demoHealthStep]
  cases h : hb server_node with
  | objResp rec =>
      cases rec with
      | nil => exact rfl
      | cons p ps => exact absurd h (hhb server_node p ps)
  | listResp items =>
      cases items with
      | nil => exact rfl
      | cons x xs =>
          have hc := demoClientHealth_okShape hb hhb cs
          cases hr : demoClientHealth hb cs <;> (rw [hr] at hc; exact hc)

/-- Node selection never raises when no heartbeat value is a non-empty
object (health checks disabled trivially included). -/
theorem demoNodeSelection_okShape (hb : String → DemoHbResp)
    (health_check : Bool) (server_node : String) (cs : List String)
    (hhb : ∀ n p ps, hb n ≠ .objResp (p :: ps)) :
    (demoNodeSelection hb health_check server_node cs).okShape := by
  rw [demoNodeSelection]
  cases health_check with
  | false => trivial
  | true => exact demoHealthStep_okShape hb hhb server_node cs

/-- Params loading neither raises nor early-returns anything but a failure
mapping, provided the file exists and has a JSON/YAML extension. -/
theorem demoParamsStep_okShape (p : ParamsInput)
    (hp : p ≠ .fileMissing ∧ p ≠ .otherExt) :
    (demoParamsStep p).okShape := by
  cases p with
  | noPath => trivial
  | fileMissing => exact absurd rfl hp.1
  | otherExt => exact absurd rfl hp.2
  | jsonFile parses => cases parses <;> trivial
  | yamlFile parses => cases parses <;> trivial

/-- Claim C2 (amended): exceptions arising in the submit, status-poll,
manifest-fetch and per-file download steps, and JSON/YAML parse errors of
the params file, are all caught and converted to `{status: ...}` mappings;
but raw exceptions escape the orchestrator in three places: (i) the logs
fetch after `Finished` (line 324, outside any `try` — the counterexample),
(ii) the health-check branch's unguarded `health_check_data[0]` indexing
when a heartbeat response is a non-empty object — including the
`{'error': ...}` dict a failed GET returns (KeyError, lines 244/259), and
(iii) params-file loading for a missing file or an unsupported extension
(FileNotFoundError / ValueError, lines 279-291, caught by neither `except`
clause). For every input and every remote behaviour avoiding (i)-(iii),
whenever the run returns it returns a success or failure mapping. -/
theorem dt4h_demonstrator_no_raw_exception (env : DemoEnv)
    (tool_name server_node : String) (client_node_list : List String)
    (health_check : Bool) (input_params_path : ParamsInput)
    (job_timeout interval fuel : ℕ) (r : Except String RunResult)
    (hlogs : ∀ msg, env.logsResp ≠ .error msg)
    (hhb : ∀ n p ps, env.heartbeat n ≠ .objResp (p :: ps))
    (hparams : input_params_path ≠ .fileMissing ∧
      input_params_path ≠ .otherExt)
    (hrun : dt4h_demonstrator env tool_name server_node client_node_list
      health_check input_params_path job_timeout interval fuel = some r) :
    ∃ m, r = .ok m ∧ (m.status = "success" ∨ m.status = "failure") := by
  have hsel := demoNodeSelection_okShape env.heartbeat health_check
    server_node client_node_list hhb
  have hpar := demoParamsStep_okShape input_params_path hparams
  unfold dt4h_demonstrator at hrun
  split at hrun
  · rename_i e heq
    rw [heq] at hsel
    exact hsel.elim
  · rename_i r0 heq
    rw [heq] at hsel
    obtain rfl := Option.some_inj.mp hrun
    exact ⟨r0, rfl, Or.inr hsel⟩
  · rename_i sel heq
    split at hrun
    · obtain rfl := Option.some_inj.mp hrun
      exact ⟨_, rfl, Or.inr rfl⟩
    · split at hrun
      · rename_i e heq2
        rw [heq2] at hpar
        exact hpar.elim
      · rename_i r1 heq2
        rw [heq2] at hpar
        obtain rfl := Option.some_inj.mp hrun
        exact ⟨r1, rfl, Or.inr hpar⟩
      · split at hrun
        · obtain rfl := Option.some_inj.mp hrun
          exact ⟨_, rfl, Or.inr rfl⟩
        · rename_i step_one calls heq3
          obtain ⟨pexit, hpoll, hmap⟩ := Option.map_eq_some'.mp hrun
          obtain ⟨m, hm, hstatus⟩ :=
            demoAfterPoll_ok env tool_name (sel.1.getD server_node) sel.2
              step_one.execution_id pexit hlogs
          exact ⟨m, by rw [← hmap, hm], hstatus⟩

/-- Remote behaviour for the C2 witness: like `c2env` but with a succeeding
logs fetch. -/
def c2okenv : DemoEnv where
  heartbeat := fun _ => .listResp [[("state", "running")]]
  submitResp := ⟨some "success", some "exec-1"⟩
  statusStream := fun _ => .fetched [[("node", "BSC"), ("status", "finished")]]
  logsResp := .ok "SERVER LOG"
  filesResp := .asDict []
  download := fun _ _ => .ok none

/-- The mapping the demonstrator returns under `c2okenv`. -/
def c2okRes : RunResult :=
  { status := "success"
    message := "Tool \"fLcore\" run on server BSC and clients UB."
    execution_id := some "exec-1"
    execution_logs := some "SERVER LOG"
    files := some [] }

/-- Witness for C2 (amended) under `c2okenv`, with the health-check branch
ENABLED (every heartbeat answers a singleton list with a running state) and
a parsing JSON params file: the run returns the success mapping `c2okRes`. -/
theorem dt4h_demonstrator_no_raw_exception_witness :
    ∃ m, (Except.ok c2okRes : Except String RunResult) = .ok m ∧
      (m.status = "success" ∨ m.status = "failure") :=
  dt4h_demonstrator_no_raw_exception c2okenv "fLcore" "BSC" ["UB"] true
    (.jsonFile true) 300 2 5 (.ok c2okRes)
    (fun msg h => by simp [c2okenv] at h)
    (fun n p ps h => by simp [c2okenv] at h)
    ⟨fun h => ParamsInput.noConfusion h, fun h => ParamsInput.noConfusion h⟩
    (by rfl)

end DT4H
